import Mathlib

/-!
Shallow embedding of the patent-record extraction logic of the
google_patent_scraper repository (src/scrape1.py and src/scrape2.py,
method scraper_class.process_patent_html and its helpers), together
with theorems settling the frozen claims about the spec.

The document is modelled through the query interface the code uses
(BeautifulSoup find / find_all / select_one results); each queried
node carries its descendant text strings and its attribute map, which
is exactly what get_text / attribute access consume.
-/

namespace GPS

/-- Python whitespace characters relevant to str.strip / str.rstrip on
the ASCII range (space, tab, newline, carriage return, vertical tab,
form feed). -/
def isPyWS (c : Char) : Bool :=
  c = ' ' || c = '\t' || c = '\n' || c = '\r' || c = '\x0b' || c = '\x0c'

/-- Python str.rstrip(): remove trailing whitespace. -/
def pyRstrip (s : String) : String :=
  String.mk ((s.data.reverse.dropWhile isPyWS).reverse)

/-- Python str.lstrip(): remove leading whitespace. -/
def pyLstrip (s : String) : String :=
  String.mk (s.data.dropWhile isPyWS)

/-- Python str.strip(): remove leading and trailing whitespace. -/
def pyStrip (s : String) : String :=
  pyRstrip (pyLstrip s)

/-- Substring test on character lists: Python `needle in hay`. -/
def containsSub (hay needle : List Char) : Bool :=
  needle.isPrefixOf hay ||
    match hay with
    | [] => false
    | _ :: t => containsSub t needle

/-- A queried HTML node: the ordered list of its descendant text
strings (what bs4 get_text iterates over) and its attribute map. -/
structure Node where
  texts : List String
  attrs : List (String × String)
deriving Repr, DecidableEq

/-- bs4 Tag.get_text(separator, strip): join all descendant strings
with the separator; with strip=True each string is stripped first and
strings that strip to empty are skipped. -/
def Node.getText (n : Node) (sep : String) (strip : Bool) : String :=
  if strip then
    String.intercalate sep ((n.texts.map pyStrip).filter (fun s => s ≠ ""))
  else
    String.intercalate sep n.texts

/-- get_text(strip=True) with no separator, the most common call. -/
def stripText (n : Node) : String :=
  n.getText "" true

/-- One `dd[itemprop=events]` entry, through the lookups the code
performs inside it: span[itemprop=type], time[itemprop=date],
span[itemprop=title]. -/
structure Event where
  typeSpan : Option Node
  dateNode : Option Node
  titleSpan : Option Node
deriving Repr, DecidableEq

/-- One citation table row, through the three lookups of
parse_citation: span[itemprop=publicationNumber],
td[itemprop=priorityDate], td[itemprop=publicationDate]. -/
structure Row where
  pubNumSpan : Option Node
  priorityTd : Option Node
  pubDateTd : Option Node
deriving Repr, DecidableEq

/-- One `li[itemprop=classifications]` item: whether
find('meta', itemprop='Leaf', content='true') matched, plus the
Code and Description span lookups. -/
structure ClassItem where
  leafMeta : Bool
  codeSpan : Option Node
  descSpan : Option Node
deriving Repr, DecidableEq

/-- A parsed patent page, presented through the results of every
query process_patent_html issues against the soup. -/
structure Doc where
  titleMeta : Option Node
  inventors : List Node
  assigneesOrig : List Node
  assigneesCurrent : List Node
  publicationDateNode : Option Node
  publicationNumberNode : Option Node
  applicationNumberNode : Option Node
  filingDateSpan : Option Node
  filingDateDdTime : Option (Option Node)
  legalStatusNode : Option Node
  events : List Event
  forwardRowsNoFamily : List Row
  forwardRowsFamily : List Row
  backwardRowsNoFamily : List Row
  backwardRowsFamily : List Row
  classificationItems : List ClassItem
  abstractSel1 : Option Node
  abstractSel2 : Option Node
  descriptionSection : Option Node
  claimsSection : Option Node
deriving Repr, DecidableEq

/-- The page with every lookup empty. -/
def emptyDoc : Doc :=
  { titleMeta := none, inventors := [], assigneesOrig := [],
    assigneesCurrent := [], publicationDateNode := none,
    publicationNumberNode := none, applicationNumberNode := none,
    filingDateSpan := none, filingDateDdTime := none,
    legalStatusNode := none, events := [], forwardRowsNoFamily := [],
    forwardRowsFamily := [], backwardRowsNoFamily := [],
    backwardRowsFamily := [], classificationItems := [],
    abstractSel1 := none, abstractSel2 := none,
    descriptionSection := none, claimsSection := none }

/-- The scraper configuration flags read by process_patent_html
(self.return_abstract, self.return_description, self.return_claims). -/
structure Options where
  return_abstract : Bool
  return_description : Bool
  return_claims : Bool
deriving Repr, DecidableEq

/-- A Python value as it sits in the returned dict: the code stores
strings everywhere (lists are passed through json.dumps first), but
the type also has list and dict constructors so that claims about the
shape of the stored values can be stated. -/
inductive Value where
  | str (s : String)
  | arr (vs : List Value)
  | obj (fields : List (String × Value))
deriving Repr

/-- A Python dict with string keys in insertion order. -/
abbrev PyDict := List (String × Value)

/-- Dict key access (read side): first binding for the key. -/
def getField : PyDict → String → Option Value
  | [], _ => none
  | (k, v) :: r, key => if key = k then some v else getField r key

/-- Hex digit, lowercase, as json.dumps prints in \uXXXX escapes. -/
def hexDigit (n : Nat) : Char :=
  if n < 10 then Char.ofNat (48 + n) else Char.ofNat (87 + n)

/-- json.dumps escaping of a single character, ensure_ascii=False:
only the quote, the backslash and control characters are escaped. -/
def jsonEscapeChar (c : Char) : String :=
  if c = '"' then "\\\""
  else if c = '\\' then "\\\\"
  else if c = '\n' then "\\n"
  else if c = '\t' then "\\t"
  else if c = '\r' then "\\r"
  else if c = '\x08' then "\\b"
  else if c = '\x0c' then "\\f"
  else if c.toNat < 0x20 then
    String.mk ['\\', 'u', '0', '0', hexDigit (c.toNat / 16), hexDigit (c.toNat % 16)]
  else String.singleton c

/-- json.dumps of one string (ensure_ascii=False). -/
def jsonStr (s : String) : String :=
  "\"" ++ String.join (s.data.map jsonEscapeChar) ++ "\""

/-- json.dumps of a list of strings, default separators. -/
def jsonStrList (l : List String) : String :=
  "[" ++ String.intercalate ", " (l.map jsonStr) ++ "]"

/-- Result of parse_citation for one table row. -/
structure Citation where
  patent_number : String
  priority_date : String
  publication_date : String
deriving Repr, DecidableEq

/-- One emitted classification entry. -/
structure Classification where
  code : String
  description : String
deriving Repr, DecidableEq

/-- json.dumps of one citation dict, default separators. -/
def jsonCitation (c : Citation) : String :=
  "\x7b\"patent_number\": " ++ jsonStr c.patent_number ++
    ", \"priority_date\": " ++ jsonStr c.priority_date ++
    ", \"publication_date\": " ++ jsonStr c.publication_date ++ "\x7d"

/-- json.dumps of the citation list. -/
def jsonCitList (l : List Citation) : String :=
  "[" ++ String.intercalate ", " (l.map jsonCitation) ++ "]"

/-- json.dumps of one classification dict, default separators. -/
def jsonClassification (c : Classification) : String :=
  "\x7b\"code\": " ++ jsonStr c.code ++
    ", \"description\": " ++ jsonStr c.description ++ "\x7d"

/-- json.dumps of the classification list. -/
def jsonClassList (l : List Classification) : String :=
  "[" ++ String.intercalate ", " (l.map jsonClassification) ++ "]"

/-- scraper_class.parse_citation (identical in scrape1.py and
scrape2.py): each of the three lookups inside the row independently
falls back to the empty string on AttributeError. -/
def parse_citation (r : Row) : Citation :=
  { patent_number :=
      match r.pubNumSpan with
      | some n => stripText n
      | none => ""
    priority_date :=
      match r.priorityTd with
      | some n => stripText n
      | none => ""
    publication_date :=
      match r.pubDateTd with
      | some n => stripText n
      | none => "" }

/-- The four date accumulators of the event loop
(publication_date, priority_date, granted_date, expiration_date). -/
structure EvState where
  pub : String
  pri : String
  gra : String
  exp : String
deriving Repr, DecidableEq

/-- One iteration of the `for event in soup.find_all('dd',
itemprop='events')` loop: an AttributeError from the type or date
lookup skips the whole iteration; otherwise the if/elif chain on the
type text runs, followed by the title/expiration check. -/
def stepEvent (st : EvState) (e : Event) : EvState :=
  match e.typeSpan, e.dateNode with
  | some t, some dn =>
    let et := stripText t
    let ed := stripText dn
    let st1 :=
      if et = "priority" then { st with pri := ed }
      else if et = "granted" then { st with gra := ed }
      else if et = "publication" ∧ st.pub = "" then { st with pub := ed }
      else st
    match e.titleSpan with
    | some ts =>
      if containsSub (stripText ts).toLower.data "expiration".data then
        { st1 with exp := ed }
      else st1
    | none => st1
  | _, _ => st

/-- The whole event loop, in document order. -/
def processEvents (evs : List Event) (st : EvState) : EvState :=
  evs.foldl stepEvent st

/-- The direct dd[itemprop=publicationDate] lookup (step before the
event loop), AttributeError absorbed to the empty string. -/
def directPub (d : Doc) : String :=
  match d.publicationDateNode with
  | some n => stripText n
  | none => ""

/-- The body of the classification loop for one list item: items
without the Leaf marker are skipped, and an AttributeError from the
Code or Description lookup skips the item. -/
def classOf (item : ClassItem) : Option Classification :=
  if item.leafMeta then
    match item.codeSpan, item.descSpan with
    | some c, some de => some { code := stripText c, description := stripText de }
    | _, _ => none
  else none

/-- The classification loop over all li[itemprop=classifications]. -/
def processClassifications (items : List ClassItem) : List Classification :=
  items.filterMap classOf

/-- Title extraction, shared by both variants: the content attribute
of the DC.title meta tag, right-stripped; a missing tag (TypeError)
or a missing content attribute (KeyError) is absorbed to the empty
string. -/
def titleOf (d : Doc) : String :=
  match d.titleMeta with
  | none => ""
  | some n =>
    match n.attrs.lookup "content" with
    | none => ""
    | some c => pyRstrip c

/-- A single first-match lookup whose AttributeError is absorbed to
the empty string (get_text(strip=True) on the node when found). -/
def firstMatchText (o : Option Node) : String :=
  match o with
  | some n => stripText n
  | none => ""

/-- scraper_class.process_patent_html of src/scrape1.py: the returned
dict, key for key in the order of the source literal (note: this
variant has no publication_number entry). -/
def process_patent_html1 (o : Options) (soup : Doc) : PyDict :=
  let ev := processEvents soup.events
    { pub := directPub soup, pri := "", gra := "", exp := "" }
  let abstract_text :=
    if o.return_abstract then
      match soup.abstractSel1 with
      | some n => pyStrip (n.getText "" false)
      | none => "Abstract not found"
    else ""
  let description_text :=
    if o.return_description then
      match soup.descriptionSection with
      | some n => n.getText "\n" true
      | none => ""
    else ""
  let claims_text :=
    if o.return_claims then
      match soup.claimsSection with
      | some n => n.getText "\n" true
      | none => ""
    else ""
  [("title", .str (titleOf soup)),
   ("inventor_name", .str (jsonStrList (soup.inventors.map stripText))),
   ("assignee_name_orig", .str (jsonStrList (soup.assigneesOrig.map stripText))),
   ("assignee_name_current", .str (jsonStrList (soup.assigneesCurrent.map stripText))),
   ("publication_date", .str ev.pub),
   ("priority_date", .str ev.pri),
   ("granted_date", .str ev.gra),
   ("filing_date", .str (firstMatchText soup.filingDateSpan)),
   ("expiration_date", .str ev.exp),
   ("application_number", .str (firstMatchText soup.applicationNumberNode)),
   ("legal_status", .str (firstMatchText soup.legalStatusNode)),
   ("forward_cite_no_family", .str (jsonCitList (soup.forwardRowsNoFamily.map parse_citation))),
   ("forward_cite_yes_family", .str (jsonCitList (soup.forwardRowsFamily.map parse_citation))),
   ("backward_cite_no_family", .str (jsonCitList (soup.backwardRowsNoFamily.map parse_citation))),
   ("backward_cite_yes_family", .str (jsonCitList (soup.backwardRowsFamily.map parse_citation))),
   ("classifications", .str (jsonClassList (processClassifications soup.classificationItems))),
   ("abstract_text", .str abstract_text),
   ("description_text", .str description_text),
   ("claims_text", .str claims_text)]

/-- The filing date of the scrape2.py variant: dd[itemprop=filingDate]
first, then a time element inside it; a missing dd yields the empty
string via the conditional expression, a missing time raises
AttributeError which the handler absorbs to the empty string. -/
def filingDate2 (d : Doc) : String :=
  match d.filingDateDdTime with
  | none => ""
  | some none => ""
  | some (some n) => stripText n

/-- scraper_class.process_patent_html of src/scrape2.py: same logic
plus a publication_number entry (get_text with no strip, bare except)
and a narrower abstract selector. -/
def process_patent_html2 (o : Options) (soup : Doc) : PyDict :=
  let ev := processEvents soup.events
    { pub := directPub soup, pri := "", gra := "", exp := "" }
  let publication_number :=
    match soup.publicationNumberNode with
    | some n => n.getText "" false
    | none => ""
  let abstract_text :=
    if o.return_abstract then
      match soup.abstractSel2 with
      | some n => pyStrip (n.getText "" false)
      | none => "Abstract not found"
    else ""
  let description_text :=
    if o.return_description then
      match soup.descriptionSection with
      | some n => n.getText "\n" true
      | none => ""
    else ""
  let claims_text :=
    if o.return_claims then
      match soup.claimsSection with
      | some n => n.getText "\n" true
      | none => ""
    else ""
  [("title", .str (titleOf soup)),
   ("inventor_name", .str (jsonStrList (soup.inventors.map stripText))),
   ("assignee_name_orig", .str (jsonStrList (soup.assigneesOrig.map stripText))),
   ("assignee_name_current", .str (jsonStrList (soup.assigneesCurrent.map stripText))),
   ("publication_date", .str ev.pub),
   ("priority_date", .str ev.pri),
   ("granted_date", .str ev.gra),
   ("filing_date", .str (filingDate2 soup)),
   ("expiration_date", .str ev.exp),
   ("application_number", .str (firstMatchText soup.applicationNumberNode)),
   ("publication_number", .str publication_number),
   ("legal_status", .str (firstMatchText soup.legalStatusNode)),
   ("forward_cite_no_family", .str (jsonCitList (soup.forwardRowsNoFamily.map parse_citation))),
   ("forward_cite_yes_family", .str (jsonCitList (soup.forwardRowsFamily.map parse_citation))),
   ("backward_cite_no_family", .str (jsonCitList (soup.backwardRowsNoFamily.map parse_citation))),
   ("backward_cite_yes_family", .str (jsonCitList (soup.backwardRowsFamily.map parse_citation))),
   ("classifications", .str (jsonClassList (processClassifications soup.classificationItems))),
   ("abstract_text", .str abstract_text),
   ("description_text", .str description_text),
   ("claims_text", .str claims_text)]

/-- scraper_class.get_scraped_data (scrape1.py): process the soup and
append the url and patent keys (dict insertion order puts the new
keys last). -/
def get_scraped_data1 (o : Options) (soup : Doc) (patent url : String) : PyDict :=
  process_patent_html1 o soup ++ [("url", .str url), ("patent", .str patent)]

/-- scraper_class.get_scraped_data (scrape2.py). -/
def get_scraped_data2 (o : Options) (soup : Doc) (patent url : String) : PyDict :=
  process_patent_html2 o soup ++ [("url", .str url), ("patent", .str patent)]

/-- The Python exception classes that matter to the extraction call:
AttributeError is what actually escapes on a null soup;
invalidDocumentError is the name the spec assigns to that failure and
is listed here only so the claim about it can be stated — no such
class exists anywhere in the code. -/
inductive PyErr where
  | attributeError
  | invalidDocumentError
deriving Repr, DecidableEq

/-- process_patent_html of scrape1.py on a possibly-null soup: with
soup = None the very first query (soup.find for the title) raises
AttributeError, which the title handler — catching only TypeError and
KeyError — does not absorb, so it escapes; on any parsed document
every lookup failure is absorbed and the full record is returned. -/
def process_patent_html1E (o : Options) (soup : Option Doc) : Except PyErr PyDict :=
  match soup with
  | none => .error .attributeError
  | some d => .ok (process_patent_html1 o d)

/-- The attributes of a scraper_class instance (scrape1.py __init__),
minus the Playwright handles, which the extraction never touches. -/
structure ScraperState where
  list_of_patents : List String
  scrape_status : List (String × String)
  parsed_patents : List (String × PyDict)
  return_abstract : Bool
  return_description : Bool
  return_claims : Bool
  headless : Bool

/-- The three flags process_patent_html reads from self. -/
def optionsOf (s : ScraperState) : Options :=
  { return_abstract := s.return_abstract,
    return_description := s.return_description,
    return_claims := s.return_claims }

/-- get_scraped_data as a state transformer on the instance: the body
of process_patent_html and get_scraped_data contains no assignment to
self, so the instance state comes back unchanged. -/
def get_scraped_dataS (s : ScraperState) (soup : Doc) (patent url : String) :
    PyDict × ScraperState :=
  (get_scraped_data1 (optionsOf s) soup patent url, s)

/-- A well-formed event seen as its (type text, date text) pair; none
when the type or date lookup inside it fails. -/
def eventTypeDate (e : Event) : Option (String × String) :=
  match e.typeSpan, e.dateNode with
  | some t, some d => some (stripText t, stripText d)
  | _, _ => none

/-- The dates of all well-formed events carrying the given type
label, in document order. -/
def matchDates (label : String) (evs : List Event) : List String :=
  evs.filterMap fun e =>
    match eventTypeDate e with
    | some (t, d) => if t = label then some d else none
    | none => none

/-- The date of a well-formed event whose title text contains the
substring expiration (case-insensitive); none otherwise. -/
def expDateOf (e : Event) : Option String :=
  match eventTypeDate e with
  | some (_, d) =>
    match e.titleSpan with
    | some ts =>
      if containsSub (stripText ts).toLower.data "expiration".data then some d
      else none
    | none => none
  | none => none

/-- The dates of all expiration-titled well-formed events, in
document order. -/
def expDates (evs : List Event) : List String :=
  evs.filterMap expDateOf

/-- The date of a well-formed publication-typed event; none
otherwise. -/
def pubDateOf (e : Event) : Option String :=
  match eventTypeDate e with
  | some (t, d) => if t = "publication" then some d else none
  | none => none

/-- Last-wins resolution of a date list over a prior default. -/
def lastWins (l : List String) (dflt : String) : String :=
  l.getLast?.getD dflt

/-- First-nonempty-wins resolution of a date list. -/
def firstNonempty (l : List String) : String :=
  ((l.filter (fun s => s ≠ "")).head?).getD ""

lemma lastWins_cons (d x : String) (l : List String) :
    lastWins (d :: l) x = lastWins l d := by
  cases l with
  | nil => simp [lastWins]
  | cons a l =>
    simp [lastWins, List.getLast?_cons_cons]
    cases h : (a :: l).getLast? with
    | none => simp [List.getLast?] at h
    | some b => simp

lemma firstNonempty_cons (d : String) (l : List String) :
    firstNonempty (d :: l) = if d = "" then firstNonempty l else d := by
  by_cases h : d = "" <;> simp [firstNonempty, List.filter_cons, h]

lemma matchDates_cons (g : String) (e : Event) (evs : List Event) :
    matchDates g (e :: evs) =
      match eventTypeDate e with
      | some (t, d) =>
        if t = g then d :: matchDates g evs else matchDates g evs
      | none => matchDates g evs := by
  cases h : eventTypeDate e with
  | none => simp [matchDates, List.filterMap_cons, h]
  | some td =>
    cases td with
    | mk t d =>
      by_cases ht : t = g <;> simp [matchDates, List.filterMap_cons, h, ht]

lemma stepEvent_gra (st : EvState) (e : Event) :
    (stepEvent st e).gra =
      match eventTypeDate e with
      | some (t, d) => if t = "granted" then d else st.gra
      | none => st.gra := by
  rcases e with ⟨ts, dn, tls⟩
  cases ts <;> cases dn <;> cases tls <;>
    simp only [stepEvent, eventTypeDate] <;> split_ifs <;>
    simp_all [apply_ite EvState.gra]

lemma stepEvent_pri (st : EvState) (e : Event) :
    (stepEvent st e).pri =
      match eventTypeDate e with
      | some (t, d) => if t = "priority" then d else st.pri
      | none => st.pri := by
  rcases e with ⟨ts, dn, tls⟩
  cases ts <;> cases dn <;> cases tls <;>
    simp only [stepEvent, eventTypeDate] <;> split_ifs <;>
    simp_all [apply_ite EvState.pri]

lemma stepEvent_exp (st : EvState) (e : Event) :
    (stepEvent st e).exp = (expDateOf e).getD st.exp := by
  rcases e with ⟨ts, dn, tls⟩
  cases ts <;> cases dn <;> cases tls <;>
    simp only [stepEvent, expDateOf, eventTypeDate] <;> (try split_ifs) <;>
    simp_all [apply_ite EvState.exp]

lemma stepEvent_pub (st : EvState) (e : Event) :
    (stepEvent st e).pub =
      if st.pub = "" then (pubDateOf e).getD st.pub else st.pub := by
  rcases e with ⟨ts, dn, tls⟩
  cases ts <;> cases dn <;> cases tls <;>
    simp only [stepEvent, pubDateOf, eventTypeDate] <;> (try split_ifs) <;>
    simp_all [apply_ite EvState.pub]

lemma processEvents_gra (evs : List Event) (st : EvState) :
    (processEvents evs st).gra = lastWins (matchDates "granted" evs) st.gra := by
  induction evs generalizing st with
  | nil => simp [processEvents, lastWins, matchDates]
  | cons e evs ih =>
    show (processEvents evs (stepEvent st e)).gra = _
    rw [ih, matchDates_cons, stepEvent_gra]
    cases h : eventTypeDate e with
    | none => rfl
    | some td =>
      cases td with
      | mk t d =>
        by_cases ht : t = "granted"
        · simp [ht, lastWins_cons]
        · simp [ht]

lemma processEvents_pri (evs : List Event) (st : EvState) :
    (processEvents evs st).pri = lastWins (matchDates "priority" evs) st.pri := by
  induction evs generalizing st with
  | nil => simp [processEvents, lastWins, matchDates]
  | cons e evs ih =>
    show (processEvents evs (stepEvent st e)).pri = _
    rw [ih, matchDates_cons, stepEvent_pri]
    cases h : eventTypeDate e with
    | none => rfl
    | some td =>
      cases td with
      | mk t d =>
        by_cases ht : t = "priority"
        · simp [ht, lastWins_cons]
        · simp [ht]

lemma processEvents_exp (evs : List Event) (st : EvState) :
    (processEvents evs st).exp = lastWins (expDates evs) st.exp := by
  induction evs generalizing st with
  | nil => simp [processEvents, lastWins, expDates]
  | cons e evs ih =>
    show (processEvents evs (stepEvent st e)).exp = _
    rw [ih, stepEvent_exp]
    cases h : expDateOf e with
    | none => simp [expDates, List.filterMap_cons, h]
    | some d => simp [expDates, List.filterMap_cons, h, lastWins_cons]

lemma processEvents_pub (evs : List Event) (st : EvState) :
    (processEvents evs st).pub =
      if st.pub = "" then firstNonempty (matchDates "publication" evs)
      else st.pub := by
  induction evs generalizing st with
  | nil =>
    by_cases h : st.pub = "" <;>
      simp [processEvents, firstNonempty, matchDates, h]
  | cons e evs ih =>
    show (processEvents evs (stepEvent st e)).pub = _
    rw [ih, stepEvent_pub, matchDates_cons]
    cases h : eventTypeDate e with
    | none =>
      simp only [pubDateOf, h]
      by_cases hp : st.pub = "" <;> simp [hp]
    | some td =>
      cases td with
      | mk t d =>
        simp only [pubDateOf, h]
        by_cases ht : t = "publication"
        · by_cases hp : st.pub = ""
          · by_cases hd : d = "" <;>
              simp [ht, hp, hd, firstNonempty_cons]
          · simp [ht, hp]
        · by_cases hp : st.pub = "" <;> simp [ht, hp]

/-- A node whose whole text content is a single string and which has
no attributes. -/
def txtNode (s : String) : Node :=
  { texts := [s], attrs := [] }

/-- A well-formed event with the given type label and date text and
no title span. -/
def mkEvent (t d : String) : Event :=
  { typeSpan := some (txtNode t), dateNode := some (txtNode d),
    titleSpan := none }

/-- A page whose only content is two publication-typed events, dated
2001-01-01 and then 2002-02-02, and no direct publication-date
node. -/
def docTwoPubEvents : Doc :=
  { emptyDoc with
    events := [mkEvent "publication" "2001-01-01",
               mkEvent "publication" "2002-02-02"] }

/-- A page with a direct publication-date node whose text strips to
the empty string, together with a publication-typed event dated
2003-03-03. -/
def docBlankDirectPub : Doc :=
  { emptyDoc with
    publicationDateNode := some (txtNode " "),
    events := [mkEvent "publication" "2003-03-03"] }

/-- A page with a direct publication-date node dated 2004-04-04 and a
publication-typed event dated 2005-05-05. -/
def docDirectAndEventPub : Doc :=
  { emptyDoc with
    publicationDateNode := some (txtNode "2004-04-04"),
    events := [mkEvent "publication" "2005-05-05"] }

/-- A page whose only content is one inventor node. -/
def docOneInventor : Doc :=
  { emptyDoc with inventors := [txtNode "Alice Example"] }

/-- A page whose title meta tag has a content attribute with both
leading and trailing whitespace. -/
def docTitled : Doc :=
  { emptyDoc with
    titleMeta := some { texts := [], attrs := [("content", "  Anchor device ")] } }

/-- C1 counterexample: the dict returned by the scrape1.py variant
has no publication_number key at all, on any page — here the empty
page — so the claimed full key set is not delivered by that
extraction function. -/
theorem publication_number_key_missing_in_scrape1 :
    "publication_number" ∉
      (get_scraped_data1 ⟨false, false, false⟩ emptyDoc "US2668287A"
        "https://patents.google.com/patent/US2668287A/en").map Prod.fst := by
  decide

/-- C1 (amended): both variants return every key of the data model
except that the scrape1.py record lacks publication_number (the
scrape2.py record has it); the key set is the same for every page and
every option choice, and on the empty page every value is the empty
default rather than a missing key. -/
theorem record_keys_complete_modulo_publication_number
    (o : Options) (d : Doc) (p u : String) :
    (get_scraped_data2 o d p u).map Prod.fst =
      ["title", "inventor_name", "assignee_name_orig", "assignee_name_current",
       "publication_date", "priority_date", "granted_date", "filing_date",
       "expiration_date", "application_number", "publication_number",
       "legal_status", "forward_cite_no_family", "forward_cite_yes_family",
       "backward_cite_no_family", "backward_cite_yes_family",
       "classifications", "abstract_text", "description_text", "claims_text",
       "url", "patent"] ∧
    (get_scraped_data1 o d p u).map Prod.fst =
      ["title", "inventor_name", "assignee_name_orig", "assignee_name_current",
       "publication_date", "priority_date", "granted_date", "filing_date",
       "expiration_date", "application_number", "legal_status",
       "forward_cite_no_family", "forward_cite_yes_family",
       "backward_cite_no_family", "backward_cite_yes_family",
       "classifications", "abstract_text", "description_text", "claims_text",
       "url", "patent"] ∧
    process_patent_html1 ⟨false, false, false⟩ emptyDoc =
      [("title", .str ""), ("inventor_name", .str "[]"),
       ("assignee_name_orig", .str "[]"), ("assignee_name_current", .str "[]"),
       ("publication_date", .str ""), ("priority_date", .str ""),
       ("granted_date", .str ""), ("filing_date", .str ""),
       ("expiration_date", .str ""), ("application_number", .str ""),
       ("legal_status", .str ""), ("forward_cite_no_family", .str "[]"),
       ("forward_cite_yes_family", .str "[]"),
       ("backward_cite_no_family", .str "[]"),
       ("backward_cite_yes_family", .str "[]"),
       ("classifications", .str "[]"), ("abstract_text", .str ""),
       ("description_text", .str ""), ("claims_text", .str "")] :=
  ⟨rfl, rfl, rfl⟩

/-- C2 counterexample: with no direct publication date and two
well-formed publication-typed events dated D1 = 2001-01-01 and then
D2 = 2002-02-02, the publication_date field is D1, not D2 — the
publication category is not last-wins. -/
theorem publication_event_first_wins :
    getField (process_patent_html1 ⟨false, false, false⟩ docTwoPubEvents)
        "publication_date" ≠ some (Value.str "2002-02-02") ∧
      getField (process_patent_html1 ⟨false, false, false⟩ docTwoPubEvents)
        "publication_date" = some (Value.str "2001-01-01") := by
  refine ⟨fun h => ?_, rfl⟩
  have e : getField (process_patent_html1 ⟨false, false, false⟩ docTwoPubEvents)
      "publication_date" = some (Value.str "2001-01-01") := rfl
  rw [e] at h
  exact absurd (Value.str.inj (Option.some.inj h)) (by decide)

/-- C2 (amended): event-date resolution is last-wins for the
priority, granted and expiration categories — the field equals the
date of the last well-formed matching event in document order (so two
granted events dated D1 then D2 give granted_date = D2) — but the
publication category is first-nonempty-wins: the fallback only fills
publication_date while it is still empty, so an earlier publication
event is never overwritten by a later one. -/
theorem event_dates_resolution (o : Options) (d : Doc) :
    getField (process_patent_html1 o d) "granted_date" =
        some (.str (lastWins (matchDates "granted" d.events) "")) ∧
      getField (process_patent_html1 o d) "priority_date" =
        some (.str (lastWins (matchDates "priority" d.events) "")) ∧
      getField (process_patent_html1 o d) "expiration_date" =
        some (.str (lastWins (expDates d.events) "")) ∧
      getField (process_patent_html1 o d) "publication_date" =
        some (.str (if directPub d = ""
          then firstNonempty (matchDates "publication" d.events)
          else directPub d)) := by
  have eg : getField (process_patent_html1 o d) "granted_date" =
      some (.str (processEvents d.events
        { pub := directPub d, pri := "", gra := "", exp := "" }).gra) := rfl
  have ep : getField (process_patent_html1 o d) "priority_date" =
      some (.str (processEvents d.events
        { pub := directPub d, pri := "", gra := "", exp := "" }).pri) := rfl
  have ee : getField (process_patent_html1 o d) "expiration_date" =
      some (.str (processEvents d.events
        { pub := directPub d, pri := "", gra := "", exp := "" }).exp) := rfl
  have eu : getField (process_patent_html1 o d) "publication_date" =
      some (.str (processEvents d.events
        { pub := directPub d, pri := "", gra := "", exp := "" }).pub) := rfl
  rw [eg, ep, ee, eu, processEvents_gra, processEvents_pri, processEvents_exp,
    processEvents_pub]
  exact ⟨rfl, rfl, rfl, rfl⟩

/-- C3 counterexample: a page that does contain a direct
publication-date node (text stripping to the empty string) and a
publication-typed event dated 2003-03-03 yields the event date, not
the direct node value — the direct node does not always win. -/
theorem empty_direct_publication_date_overwritten :
    docBlankDirectPub.publicationDateNode = some (txtNode " ") ∧
      getField (process_patent_html1 ⟨false, false, false⟩ docBlankDirectPub)
        "publication_date" = some (Value.str "2003-03-03") ∧
      getField (process_patent_html1 ⟨false, false, false⟩ docBlankDirectPub)
        "publication_date" ≠ some (Value.str (stripText (txtNode " "))) := by
  refine ⟨rfl, rfl, fun h => ?_⟩
  have e : getField (process_patent_html1 ⟨false, false, false⟩ docBlankDirectPub)
      "publication_date" = some (Value.str "2003-03-03") := rfl
  rw [e] at h
  exact absurd (Value.str.inj (Option.some.inj h)) (by decide)

/-- C3 (amended): when the direct publication-date node exists and
its stripped text is nonempty, that text is the publication_date of
the record, whatever events the page carries; the event-typed
fallback contributes only when the direct lookup yields no text (node
absent or text stripping to empty). -/
theorem direct_publication_date_wins_when_nonempty
    (o : Options) (d : Doc) (n : Node)
    (h1 : d.publicationDateNode = some n) (h2 : stripText n ≠ "") :
    getField (process_patent_html1 o d) "publication_date" =
      some (.str (stripText n)) := by
  have eu : getField (process_patent_html1 o d) "publication_date" =
      some (.str (processEvents d.events
        { pub := directPub d, pri := "", gra := "", exp := "" }).pub) := rfl
  rw [eu, processEvents_pub]
  simp [directPub, h1, h2]

/-- Witness for the C3 theorem: on a page with both a direct
publication-date node dated 2004-04-04 and a publication-typed event
dated 2005-05-05, the direct value wins. -/
theorem direct_publication_date_wins_when_nonempty_witness :
    getField (process_patent_html1 ⟨false, false, false⟩ docDirectAndEventPub)
      "publication_date" = some (Value.str "2004-04-04") :=
  direct_publication_date_wins_when_nonempty ⟨false, false, false⟩
    docDirectAndEventPub (txtNode "2004-04-04") rfl (by decide)

/-- C4 (confirmed): with include_abstract off the abstract field is
exactly the empty string; with it on and no abstract region the field
is exactly the sentinel string, in both variants; whereas a requested
but absent description or claims section yields the empty string with
no sentinel. -/
theorem abstract_sentinel_asymmetry (o : Options) (d : Doc) :
    (o.return_abstract = false →
      getField (process_patent_html1 o d) "abstract_text" = some (.str "") ∧
      getField (process_patent_html2 o d) "abstract_text" = some (.str "")) ∧
    (o.return_abstract = true → d.abstractSel1 = none →
      getField (process_patent_html1 o d) "abstract_text" =
        some (.str "Abstract not found")) ∧
    (o.return_abstract = true → d.abstractSel2 = none →
      getField (process_patent_html2 o d) "abstract_text" =
        some (.str "Abstract not found")) ∧
    (o.return_description = true → d.descriptionSection = none →
      getField (process_patent_html1 o d) "description_text" = some (.str "") ∧
      getField (process_patent_html2 o d) "description_text" = some (.str "")) ∧
    (o.return_claims = true → d.claimsSection = none →
      getField (process_patent_html1 o d) "claims_text" = some (.str "") ∧
      getField (process_patent_html2 o d) "claims_text" = some (.str "")) := by
  have a1 : getField (process_patent_html1 o d) "abstract_text" =
      some (.str (if o.return_abstract then
        (match d.abstractSel1 with
         | some n => pyStrip (n.getText "" false)
         | none => "Abstract not found")
        else "")) := rfl
  have a2 : getField (process_patent_html2 o d) "abstract_text" =
      some (.str (if o.return_abstract then
        (match d.abstractSel2 with
         | some n => pyStrip (n.getText "" false)
         | none => "Abstract not found")
        else "")) := rfl
  have d1 : getField (process_patent_html1 o d) "description_text" =
      some (.str (if o.return_description then
        (match d.descriptionSection with
         | some n => n.getText "\n" true
         | none => "")
        else "")) := rfl
  have d2 : getField (process_patent_html2 o d) "description_text" =
      some (.str (if o.return_description then
        (match d.descriptionSection with
         | some n => n.getText "\n" true
         | none => "")
        else "")) := rfl
  have c1 : getField (process_patent_html1 o d) "claims_text" =
      some (.str (if o.return_claims then
        (match d.claimsSection with
         | some n => n.getText "\n" true
         | none => "")
        else "")) := rfl
  have c2 : getField (process_patent_html2 o d) "claims_text" =
      some (.str (if o.return_claims then
        (match d.claimsSection with
         | some n => n.getText "\n" true
         | none => "")
        else "")) := rfl
  refine ⟨fun h => ⟨?_, ?_⟩, fun h h2 => ?_, fun h h2 => ?_,
    fun h h2 => ⟨?_, ?_⟩, fun h h2 => ⟨?_, ?_⟩⟩
  · rw [a1, h]; rfl
  · rw [a2, h]; rfl
  · rw [a1, h, h2]; rfl
  · rw [a2, h, h2]; rfl
  · rw [d1, h, h2]; rfl
  · rw [d2, h, h2]; rfl
  · rw [c1, h, h2]; rfl
  · rw [c2, h, h2]; rfl

/-- Witness for the C4 theorem: on the empty page, all flags on gives
the sentinel abstract and empty description and claims, and the
abstract flag off gives the empty string. -/
theorem abstract_sentinel_asymmetry_witness :
    (getField (process_patent_html1 ⟨false, true, true⟩ emptyDoc)
        "abstract_text" = some (.str "") ∧
      getField (process_patent_html2 ⟨false, true, true⟩ emptyDoc)
        "abstract_text" = some (.str "")) ∧
    getField (process_patent_html1 ⟨true, true, true⟩ emptyDoc)
      "abstract_text" = some (.str "Abstract not found") ∧
    getField (process_patent_html1 ⟨true, true, true⟩ emptyDoc)
      "description_text" = some (.str "") ∧
    getField (process_patent_html1 ⟨true, true, true⟩ emptyDoc)
      "claims_text" = some (.str "") :=
  ⟨(abstract_sentinel_asymmetry ⟨false, true, true⟩ emptyDoc).1 rfl,
   (abstract_sentinel_asymmetry ⟨true, true, true⟩ emptyDoc).2.1 rfl rfl,
   ((abstract_sentinel_asymmetry ⟨true, true, true⟩ emptyDoc).2.2.2.1 rfl rfl).1,
   ((abstract_sentinel_asymmetry ⟨true, true, true⟩ emptyDoc).2.2.2.2 rfl rfl).1⟩

/-- C5 (confirmed): each of the four citation categories of the
record is the json.dumps of the row list mapped through
parse_citation — one Citation per matching table row, in document
order — and each of the three Citation fields is a function of its
own lookup alone, defaulting independently to the empty string. -/
theorem citation_rows_parsed_in_order (o : Options) (d : Doc) (r : Row) :
    getField (process_patent_html1 o d) "forward_cite_no_family" =
        some (.str (jsonCitList (d.forwardRowsNoFamily.map parse_citation))) ∧
      getField (process_patent_html1 o d) "forward_cite_yes_family" =
        some (.str (jsonCitList (d.forwardRowsFamily.map parse_citation))) ∧
      getField (process_patent_html1 o d) "backward_cite_no_family" =
        some (.str (jsonCitList (d.backwardRowsNoFamily.map parse_citation))) ∧
      getField (process_patent_html1 o d) "backward_cite_yes_family" =
        some (.str (jsonCitList (d.backwardRowsFamily.map parse_citation))) ∧
      (d.forwardRowsNoFamily.map parse_citation).length =
        d.forwardRowsNoFamily.length ∧
      (parse_citation r).patent_number = (r.pubNumSpan.map stripText).getD "" ∧
      (parse_citation r).priority_date = (r.priorityTd.map stripText).getD "" ∧
      (parse_citation r).publication_date = (r.pubDateTd.map stripText).getD "" := by
  obtain ⟨pn, pr, pd⟩ := r
  refine ⟨rfl, rfl, rfl, rfl, List.length_map _ _, ?_, ?_, ?_⟩
  · cases pn <;> rfl
  · cases pr <;> rfl
  · cases pd <;> rfl

/-- C6 (confirmed): the classifications of the record are exactly the
items that pass classOf — an item without the leaf marker is dropped
even with valid code and description spans, an item whose code or
description lookup fails is dropped entirely, and an item with the
marker and both spans yields exactly its code/description pair. -/
theorem classification_leaf_filtering (o : Options) (d : Doc) (item : ClassItem) :
    getField (process_patent_html1 o d) "classifications" =
        some (.str (jsonClassList (d.classificationItems.filterMap classOf))) ∧
      (item.leafMeta = false → classOf item = none) ∧
      (item.codeSpan = none ∨ item.descSpan = none → classOf item = none) ∧
      (∀ c de, item.leafMeta = true → item.codeSpan = some c →
        item.descSpan = some de →
        classOf item = some { code := stripText c, description := stripText de }) := by
  refine ⟨rfl, fun h => ?_, fun h => ?_, fun c de h1 h2 h3 => ?_⟩
  · simp [classOf, h]
  · rcases h with h | h <;> simp [classOf, h]
  · simp [classOf, h1, h2, h3]

/-- Witness for the C6 theorem: a non-leaf item with valid spans is
dropped, and a leaf item with both spans produces its pair. -/
theorem classification_leaf_filtering_witness :
    classOf { leafMeta := false, codeSpan := some (txtNode "A01B1/00"),
              descSpan := some (txtNode "Hand tools") } = none ∧
      classOf { leafMeta := true, codeSpan := some (txtNode "A01B1/00"),
                descSpan := none } = none ∧
      classOf { leafMeta := true, codeSpan := some (txtNode "A01B1/00"),
                descSpan := some (txtNode "Hand tools") } =
        some { code := "A01B1/00", description := "Hand tools" } :=
  ⟨(classification_leaf_filtering ⟨false, false, false⟩ emptyDoc _).2.1 rfl,
   (classification_leaf_filtering ⟨false, false, false⟩ emptyDoc _).2.2.1
     (Or.inr rfl),
   (classification_leaf_filtering ⟨false, false, false⟩ emptyDoc _).2.2.2
     (txtNode "A01B1/00") (txtNode "Hand tools") rfl rfl rfl⟩

/-- C7 counterexample: on a null document the extraction raises, but
what escapes is the builtin AttributeError, not an
InvalidDocumentError — no class of that name exists in the code. -/
theorem no_invalid_document_error :
    process_patent_html1E ⟨false, false, false⟩ none =
        Except.error PyErr.attributeError ∧
      process_patent_html1E ⟨false, false, false⟩ none ≠
        Except.error PyErr.invalidDocumentError := by
  refine ⟨rfl, fun h => ?_⟩
  have e : process_patent_html1E ⟨false, false, false⟩ none =
      Except.error PyErr.attributeError := rfl
  rw [e] at h
  exact absurd (Except.error.inj h) (by decide)

/-- C7 (amended): the extraction raises exactly on a null input
document — the escaping error being the builtin AttributeError, since
the code defines no InvalidDocumentError — and on every parsed
document every per-field lookup failure is absorbed internally and a
full record is returned. -/
theorem extraction_error_behavior (o : Options) :
    process_patent_html1E o none = Except.error PyErr.attributeError ∧
      ∀ d : Doc, process_patent_html1E o (some d) =
        Except.ok (process_patent_html1 o d) :=
  ⟨rfl, fun _ => rfl⟩

/-- C8 counterexample: on a page with one inventor the inventor field
of the record is a string holding JSON text, not a sequence value —
the dict stores json.dumps output. -/
theorem inventor_field_not_an_array :
    getField (process_patent_html1 ⟨false, false, false⟩ docOneInventor)
        "inventor_name" = some (Value.str "[\"Alice Example\"]") ∧
      ¬ ∃ l, getField (process_patent_html1 ⟨false, false, false⟩ docOneInventor)
        "inventor_name" = some (Value.arr l) := by
  refine ⟨rfl, fun ⟨l, h⟩ => ?_⟩
  have e : getField (process_patent_html1 ⟨false, false, false⟩ docOneInventor)
      "inventor_name" = some (Value.str "[\"Alice Example\"]") := rfl
  rw [e] at h
  exact Value.noConfusion (Option.some.inj h)

/-- C8 (amended): every sequence-typed field of the record is stored
as a flat string holding the json.dumps text of the sequence — an
array (of objects with exactly the keys patent_number, priority_date,
publication_date, and code, description) in textual JSON form, not a
sequence value in the record itself. -/
theorem sequence_fields_are_json_strings (o : Options) (d : Doc) :
    getField (process_patent_html1 o d) "inventor_name" =
        some (.str (jsonStrList (d.inventors.map stripText))) ∧
      getField (process_patent_html1 o d) "assignee_name_orig" =
        some (.str (jsonStrList (d.assigneesOrig.map stripText))) ∧
      getField (process_patent_html1 o d) "assignee_name_current" =
        some (.str (jsonStrList (d.assigneesCurrent.map stripText))) ∧
      getField (process_patent_html1 o d) "forward_cite_no_family" =
        some (.str (jsonCitList (d.forwardRowsNoFamily.map parse_citation))) ∧
      getField (process_patent_html1 o d) "forward_cite_yes_family" =
        some (.str (jsonCitList (d.forwardRowsFamily.map parse_citation))) ∧
      getField (process_patent_html1 o d) "backward_cite_no_family" =
        some (.str (jsonCitList (d.backwardRowsNoFamily.map parse_citation))) ∧
      getField (process_patent_html1 o d) "backward_cite_yes_family" =
        some (.str (jsonCitList (d.backwardRowsFamily.map parse_citation))) ∧
      getField (process_patent_html1 o d) "classifications" =
        some (.str (jsonClassList
          (d.classificationItems.filterMap classOf))) :=
  ⟨rfl, rfl, rfl, rfl, rfl, rfl, rfl, rfl⟩

/-- C9 (confirmed): the extraction depends only on the three option
flags of the instance plus the document and the two pass-through
identifiers — two instances agreeing on the flags produce
field-for-field identical records whatever their other attributes
hold — and it leaves the instance state unchanged, so two invocations
on the same inputs yield identical records. -/
theorem extraction_deterministic_and_pure
    (s1 s2 : ScraperState) (d : Doc) (p u : String)
    (ha : s1.return_abstract = s2.return_abstract)
    (hd : s1.return_description = s2.return_description)
    (hc : s1.return_claims = s2.return_claims) :
    (get_scraped_dataS s1 d p u).1 = (get_scraped_dataS s2 d p u).1 ∧
      (get_scraped_dataS s1 d p u).2 = s1 ∧
      ∀ k, getField (get_scraped_dataS s1 d p u).1 k =
        getField (get_scraped_dataS s2 d p u).1 k := by
  have ho : optionsOf s1 = optionsOf s2 := by
    simp [optionsOf, ha, hd, hc]
  have h1 : (get_scraped_dataS s1 d p u).1 = (get_scraped_dataS s2 d p u).1 := by
    simp only [get_scraped_dataS, ho]
  exact ⟨h1, rfl, fun k => by rw [h1]⟩

/-- Witness for the C9 theorem: two instances with the same flags but
different patent lists, statuses and headless settings produce the
same record on the empty page, and the first instance comes back
unchanged. -/
theorem extraction_deterministic_and_pure_witness :
    (get_scraped_dataS
        ⟨["US2668287A"], [], [], true, false, false, true⟩ emptyDoc "p" "u").1 =
      (get_scraped_dataS
        ⟨[], [("US2668287A", "Success")], [], true, false, false, false⟩
        emptyDoc "p" "u").1 ∧
    (get_scraped_dataS
        ⟨["US2668287A"], [], [], true, false, false, true⟩ emptyDoc "p" "u").2 =
      ⟨["US2668287A"], [], [], true, false, false, true⟩ :=
  ⟨(extraction_deterministic_and_pure
      ⟨["US2668287A"], [], [], true, false, false, true⟩
      ⟨[], [("US2668287A", "Success")], [], true, false, false, false⟩
      emptyDoc "p" "u" rfl rfl rfl).1,
   (extraction_deterministic_and_pure
      ⟨["US2668287A"], [], [], true, false, false, true⟩
      ⟨[], [("US2668287A", "Success")], [], true, false, false, false⟩
      emptyDoc "p" "u" rfl rfl rfl).2.1⟩

/-- C10 (confirmed): when the title meta tag exists and carries a
content attribute, the title field of both variants is that content
with only trailing whitespace removed — a right strip, preserving
leading whitespace. -/
theorem title_rstrip_only (o : Options) (d : Doc) (n : Node) (c : String)
    (h1 : d.titleMeta = some n) (h2 : n.attrs.lookup "content" = some c) :
    getField (process_patent_html1 o d) "title" = some (.str (pyRstrip c)) ∧
      getField (process_patent_html2 o d) "title" = some (.str (pyRstrip c)) := by
  have e1 : getField (process_patent_html1 o d) "title" =
      some (.str (titleOf d)) := rfl
  have e2 : getField (process_patent_html2 o d) "title" =
      some (.str (titleOf d)) := rfl
  rw [e1, e2]
  constructor <;> simp [titleOf, h1, h2]

/-- Witness for the C10 theorem: a content attribute with two leading
spaces and one trailing space yields a title keeping the leading
spaces and dropping only the trailing one. -/
theorem title_rstrip_only_witness :
    getField (process_patent_html1 ⟨false, false, false⟩ docTitled) "title" =
        some (Value.str "  Anchor device") ∧
      getField (process_patent_html2 ⟨false, false, false⟩ docTitled) "title" =
        some (Value.str "  Anchor device") :=
  title_rstrip_only ⟨false, false, false⟩ docTitled
    { texts := [], attrs := [("content", "  Anchor device ")] }
    "  Anchor device " rfl rfl

end GPS
